import Mathlib

/-!
Verification of the `sip` web-terminal server (session lifecycle,
message dispatch, admission control, framing) against its source.

The Go source is shallowly embedded: each stateful Go method becomes a
pure function on an explicit state record; the sequential effect order
of the Go body is preserved.  External library calls (`json.Unmarshal`,
the websocket/webtransport connection, the OS pty) are modelled as
explicit parameters or as fields of the state recording what was written
to them.  Concurrency is modelled by the sequential interleavings the
code's locks and atomics make linearizable.
-/

namespace Sip

/-- Message type bytes from part_004: MsgInput = '0', ..., MsgClose = '7'. -/
def MsgInput : Nat := 48

/-- MsgOutput = '1'. -/
def MsgOutput : Nat := 49

/-- MsgResize = '2'. -/
def MsgResize : Nat := 50

/-- MsgPing = '3'. -/
def MsgPing : Nat := 51

/-- MsgPong = '4'. -/
def MsgPong : Nat := 52

/-- MsgTitle = '5'. -/
def MsgTitle : Nat := 53

/-- MsgOptions = '6'. -/
def MsgOptions : Nat := 54

/-- MsgClose = '7'. -/
def MsgClose : Nat := 55

/-- WindowSize as sent on the session's windowChanges channel. -/
structure WindowSize where
  width : Int
  height : Int
deriving Repr, DecidableEq

/-- ResizeMessage is the decoded JSON payload of a resize frame
(part_004 lines 57-60). -/
structure ResizeMessage where
  cols : Int
  rows : Int
deriving Repr, DecidableEq

/-- Pty as returned by webSession.Pty / cmdSession.Pty. -/
structure Pty where
  width : Int
  height : Int
deriving Repr, DecidableEq

/-- The result of `json.Unmarshal(payload, &resize)`: the JSON decoder is
an external library, modelled as a function from payload bytes to an
optional decoded ResizeMessage (`none` = Unmarshal returned an error). -/
abbrev Unmarshal := List Nat → Option ResizeMessage

/-- State of one session (webSession of session.go / cmdSession of
part_001).  `program = true` is the webSession variant (a Bubble Tea
program is attached, so Resize also sends it a WindowSizeMsg);
`program = false` is the cmdSession variant.  `platformCols/Rows` record
the size last propagated to the pty bridge; `windowChanges` is the
contents of the capacity-1 resize-notification channel (`none` = empty);
`programMsgs` records the WindowSizeMsg values sent to the attached
program; `inputBytes` records every byte written to the bridge's
InputWriter. -/
structure SessionState where
  cols : Int
  rows : Int
  platformCols : Int
  platformRows : Int
  windowChanges : Option WindowSize
  program : Bool
  programMsgs : List WindowSize
  inputBytes : List Nat
deriving Repr, DecidableEq

/-- webSession.Pty (session.go lines 30-34) / cmdSession.Pty
(part_001 lines 28-32): returns the stored size under the lock. -/
def SessionState.pty (s : SessionState) : Pty :=
  ⟨s.cols, s.rows⟩

/-- webSession.Resize (session.go lines 64-82) and cmdSession.Resize
(part_001 lines 62-76).  In source order: store cols/rows under the
lock; propagate to the platform pty; non-blocking send on the
capacity-1 windowChanges channel (the `select`/`default`: if the slot
is occupied the new value is dropped); finally, in the webSession
variant only, send a WindowSizeMsg to the program. -/
def SessionState.resize (s : SessionState) (cols rows : Int) : SessionState :=
  let s1 := { s with cols := cols, rows := rows }
  let s2 := { s1 with platformCols := cols, platformRows := rows }
  let s3 :=
    match s2.windowChanges with
    | none => { s2 with windowChanges := some ⟨cols, rows⟩ }
    | some _ => s2
  if s3.program then
    { s3 with programMsgs := s3.programMsgs ++ [⟨cols, rows⟩] }
  else
    s3

/-- A receive from the windowChanges channel: yields the pending value
(if any) and empties the slot. -/
def receiveWindowChange (s : SessionState) : Option WindowSize × SessionState :=
  (s.windowChanges, { s with windowChanges := none })

/-- The session record built by httpServer.createSession
(session.go lines 98-128): each non-positive initial dimension is
clamped independently to the default (cols 80, rows 24), the platform
pty is created at the clamped size, and the windowChanges channel is
created empty with capacity 1.  `program` is true: the handler's
Bubble Tea program is attached. -/
def createSession (initialCols initialRows : Int) : SessionState :=
  let cols := if initialCols ≤ 0 then 80 else initialCols
  let rows := if initialRows ≤ 0 then 24 else initialRows
  { cols := cols
    rows := rows
    platformCols := cols
    platformRows := rows
    windowChanges := none
    program := true
    programMsgs := []
    inputBytes := [] }

/-- The session record built by httpServer.createCmdSession
(part_001 lines 116-148): identical clamping and channel setup, but no
in-process program is attached. -/
def createCmdSession (initialCols initialRows : Int) : SessionState :=
  let cols := if initialCols ≤ 0 then 80 else initialCols
  let rows := if initialRows ≤ 0 then 24 else initialRows
  { cols := cols
    rows := rows
    platformCols := cols
    platformRows := rows
    windowChanges := none
    program := false
    programMsgs := []
    inputBytes := [] }

/-- httpServer.processInput (part_004 lines 478-507).  Empty data
returns immediately; otherwise the first byte is the message type and
the rest the payload.  MsgInput: written verbatim to the bridge's
InputWriter unless read-only.  MsgResize: `json.Unmarshal` the payload;
on error log a warning and return with no state change; on success call
session.Resize.  MsgPing and every other type: no session-level
effect. -/
def processInput (readOnly : Bool) (unmarshal : Unmarshal)
    (data : List Nat) (s : SessionState) : SessionState :=
  match data with
  | [] => s
  | msgType :: payload =>
    if msgType = MsgInput then
      if readOnly then s
      else { s with inputBytes := s.inputBytes ++ payload }
    else if msgType = MsgResize then
      match unmarshal payload with
      | none => s
      | some r => s.resize r.cols r.rows
    else s

/-- httpServer.checkConnectionLimit (server.go lines 207-222): with
MaxConnections ≤ 0 the check is bypassed and the counter untouched;
otherwise increment atomically, and if the post-increment value exceeds
the maximum, immediately decrement and reject.  Returns (admitted?,
counter afterwards).  The Go int32 atomic is modelled as an Int (counts
stay far below the wrap point). -/
def checkConnectionLimit (maxConnections : Int) (connCount : Int) : Bool × Int :=
  if maxConnections ≤ 0 then
    (true, connCount)
  else
    let newCount := connCount + 1
    if maxConnections < newCount then
      (false, newCount - 1)
    else
      (true, newCount)

/-- httpServer.releaseConnection (server.go lines 224-230): with
MaxConnections ≤ 0 nothing happens; otherwise decrement once. -/
def releaseConnection (maxConnections : Int) (connCount : Int) : Int :=
  if maxConnections ≤ 0 then connCount else connCount - 1

/-- The admission bracket of handleWebSocket / handleWebTransport
(part_004 lines 83-88 and 194-199): if checkConnectionLimit rejects,
the handler returns at once with the counter as the rejected check left
it; otherwise `defer s.releaseConnection()` runs exactly once when the
connection fully ends, however it ended.  Returns (admitted?, counter
after the handler has completely finished). -/
def handleConnectionAdmission (maxConnections : Int) (connCount : Int) : Bool × Int :=
  let (ok, c1) := checkConnectionLimit maxConnections connCount
  if ok then (true, releaseConnection maxConnections c1) else (false, c1)

/-- The initial-frame read timeout of handleWebSocket
(part_004 line 113: `context.WithTimeout(ctx, 5*time.Second)`),
in seconds. -/
def initialReadTimeoutSeconds : Nat := 5

/-- The initial-size negotiation of handleWebSocket (part_004 lines
112-124).  `firstRead` is the result of the single bounded-timeout
read: `none` when the read errored or timed out, `some data` otherwise.
cols, rows start at 80, 24 and are replaced only when the read
succeeded, the frame is non-empty, its first byte is MsgResize and its
payload unmarshals. -/
def negotiateInitialSize (unmarshal : Unmarshal)
    (firstRead : Option (List Nat)) : Int × Int :=
  match firstRead with
  | none => (80, 24)
  | some data =>
    match data with
    | [] => (80, 24)
    | b :: payload =>
      if b = MsgResize then
        match unmarshal payload with
        | none => (80, 24)
        | some r => (r.cols, r.rows)
      else (80, 24)

/-- binary.BigEndian.Uint32 over the 4-byte length header. -/
def beUint32 (b0 b1 b2 b3 : Nat) : Nat :=
  ((b0 * 256 + b1) * 256 + b2) * 256 + b3

/-- httpServer.handleWebTransportInput (part_004 lines 434-476), run to
completion over the connection's remaining byte stream, with the
context/session-done checks elided (the scenario of interest is a live
session).  Each iteration: read a 4-byte big-endian length with
io.ReadFull (fewer than 4 bytes left = read failure, pump returns); if
the declared length exceeds 1024*1024 log a warning and return; read
`length` payload bytes (short read = return); dispatch the message via
processInput and loop.  Returns the session state when the pump
returns. -/
def handleWebTransportInput (readOnly : Bool) (unmarshal : Unmarshal)
    (stream : List Nat) (s : SessionState) : SessionState :=
  match stream with
  | b0 :: b1 :: b2 :: b3 :: rest =>
    let length := beUint32 b0 b1 b2 b3
    if 1024 * 1024 < length then s
    else if rest.length < length then s
    else
      handleWebTransportInput readOnly unmarshal (rest.drop length)
        (processInput readOnly unmarshal (rest.take length) s)
  | _ => s
termination_by stream.length
decreasing_by
  simp only [List.length_drop, List.length_cons]
  omega

/-- sync.Map.Delete on the server's session registry, viewed as the
list of live session ids (server.go line 42, session.go line 182,
part_001 line 179): deleting a session's id removes that id and only
that id. -/
def registryDelete (registry : List String) (id : String) : List String :=
  registry.filter (fun k => k ≠ id)

/-- Teardown-relevant state of one session, for closeSession
(session.go lines 161-188) and closeCmdSession (part_001 lines
162-185): the closed flag plus counters of each teardown effect, so
"exactly once" is statable.  `hasProgram` / `hasPlatform` are the
`!= nil` guards in the source. -/
structure TeardownState where
  closed : Bool
  hasProgram : Bool
  hasPlatform : Bool
  quitCount : Nat
  cancelCount : Nat
  platformCloseCount : Nat
  registryDeleteCount : Nat
deriving Repr, DecidableEq

/-- httpServer.closeSession (session.go lines 161-188): under the
session's lock, return at once if already closed, else set closed; only
then quit the program (if attached), cancel the context, close the
platform pty (if any) and delete the session from the registry. -/
def closeSession (t : TeardownState) : TeardownState :=
  if t.closed then t
  else
    let t1 := { t with closed := true }
    let t2 :=
      if t1.hasProgram then { t1 with quitCount := t1.quitCount + 1 } else t1
    let t3 := { t2 with cancelCount := t2.cancelCount + 1 }
    let t4 :=
      if t3.hasPlatform then
        { t3 with platformCloseCount := t3.platformCloseCount + 1 }
      else t3
    { t4 with registryDeleteCount := t4.registryDeleteCount + 1 }

/-- httpServer.closeCmdSession (part_001 lines 162-185): identical
check-and-set of the closed flag under the lock, then cancel the
context, close the platform pty (if any) and delete from the registry
(no program to quit). -/
def closeCmdSession (t : TeardownState) : TeardownState :=
  if t.closed then t
  else
    let t1 := { t with closed := true }
    let t2 := { t1 with cancelCount := t1.cancelCount + 1 }
    let t3 :=
      if t2.hasPlatform then
        { t2 with platformCloseCount := t2.platformCloseCount + 1 }
      else t2
    { t3 with registryDeleteCount := t3.registryDeleteCount + 1 }

/-- The background watcher of createCmdSession (part_001 lines 151-154):
`platform.Wait()` then `cancel()` — once the spawned process has
exited, the session's context is cancelled, so session.Done() is
closed. -/
def sessionDoneAfterProcessExit (processExited : Bool) : Bool :=
  processExited

/-- What the output pump observes at the head of one loop iteration of
streamOutputToWebTransport (part_004 lines 354-407): the shared context
already cancelled, the session's done signal, or the result of
OutputReader().Read (an error, or a chunk of n bytes). -/
inductive PumpObs where
  | ctxDone
  | sessDone
  | readErr
  | readChunk (data : List Nat)
deriving Repr, DecidableEq

/-- streamOutputToWebTransport (part_004 lines 354-407), abstracted to
the sequence of messages handed to the transport (each is then framed
by writeFramed).  Per iteration: on ctx.Done return writing nothing; on
session.Done write a close message and return; on read error write a
close message and return; on a read of 0 bytes continue; on a read of n
bytes write MsgOutput followed by the chunk and loop. -/
def outputPump : List PumpObs → List (List Nat)
  | [] => []
  | .ctxDone :: _ => []
  | .sessDone :: _ => [[MsgClose]]
  | .readErr :: _ => [[MsgClose]]
  | .readChunk d :: rest =>
    if d = [] then outputPump rest
    else (MsgOutput :: d) :: outputPump rest

/-- One client-visible event of a connection handler's tail. -/
inductive ConnEvent where
  | sent (msg : List Nat)
  | tornDown
deriving Repr, DecidableEq

/-- The tail of handleWebTransport (part_004 lines 269-304): the
messages the output pump writes, in order, followed by the deferred
session teardown (closeFunc) which runs only after wg.Wait, i.e. after
both pumps have returned. -/
def handlerTail (obs : List PumpObs) : List ConnEvent :=
  (outputPump obs).map ConnEvent.sent ++ [ConnEvent.tornDown]

/-- writeFramed (part_004 lines 509-515): 4-byte big-endian length then
the message bytes. -/
def writeFramed (msg : List Nat) : List Nat :=
  [msg.length / 16777216 % 256, msg.length / 65536 % 256,
   msg.length / 256 % 256, msg.length % 256] ++ msg

/-- A burst of consecutive resize calls applied in order to a session
(session.Resize invoked once per parsed resize message). -/
def applyResizeBurst (burst : List WindowSize) (s : SessionState) : SessionState :=
  burst.foldl (fun st w => st.resize w.width w.height) s

/-- A sequence of resize messages dispatched through processInput, one
MsgResize frame per payload. -/
def applyResizeMsgs (readOnly : Bool) (unmarshal : Unmarshal)
    (payloads : List (List Nat)) (s : SessionState) : SessionState :=
  payloads.foldl (fun st p => processInput readOnly unmarshal (MsgResize :: p) st) s

theorem resize_cols (s : SessionState) (c r : Int) : (s.resize c r).cols = c := by
  unfold SessionState.resize
  cases s.windowChanges <;> dsimp only <;> split <;> rfl

theorem resize_rows (s : SessionState) (c r : Int) : (s.resize c r).rows = r := by
  unfold SessionState.resize
  cases s.windowChanges <;> dsimp only <;> split <;> rfl

theorem resize_inputBytes (s : SessionState) (c r : Int) :
    (s.resize c r).inputBytes = s.inputBytes := by
  unfold SessionState.resize
  cases s.windowChanges <;> dsimp only <;> split <;> rfl

theorem resize_windowChanges_of_none (s : SessionState) (c r : Int)
    (h : s.windowChanges = none) :
    (s.resize c r).windowChanges = some ⟨c, r⟩ := by
  unfold SessionState.resize
  rw [h]
  dsimp only
  split <;> rfl

theorem resize_windowChanges_of_some (s : SessionState) (c r : Int) (w : WindowSize)
    (h : s.windowChanges = some w) :
    (s.resize c r).windowChanges = some w := by
  unfold SessionState.resize
  rw [h]
  dsimp only
  split <;> rfl

theorem applyResizeBurst_windowChanges_of_some (burst : List WindowSize)
    (s : SessionState) (w : WindowSize) (h : s.windowChanges = some w) :
    (applyResizeBurst burst s).windowChanges = some w := by
  induction burst generalizing s with
  | nil => simpa [applyResizeBurst] using h
  | cons x xs ih =>
    simp only [applyResizeBurst, List.foldl_cons]
    exact ih _ (resize_windowChanges_of_some s x.width x.height w h)

/-- C2: with the read-only flag enabled, dispatching any MsgInput
message leaves the session state — in particular the bytes written to
the bridge's input writer — completely unchanged (the payload is
discarded silently); with read-only disabled, the payload is appended
verbatim to the bridge input and nothing else changes. -/
theorem readOnly_input_discarded (unmarshal : Unmarshal)
    (payload : List Nat) (s : SessionState) :
    processInput true unmarshal (MsgInput :: payload) s = s ∧
    processInput false unmarshal (MsgInput :: payload) s =
      { s with inputBytes := s.inputBytes ++ payload } := by
  constructor <;> simp [processInput]

/-- C3: with max-connections N > 0, a connection attempt arriving at
count N is rejected and the counter immediately returns to N; with
max-connections 0 the check is bypassed and the counter untouched; an
admitted connection's full lifecycle (admission bracket) decrements the
counter exactly once back to its pre-connection value; and after one of
the N admitted connections releases, the next attempt is admitted. -/
theorem connection_limit_behaviour (N c : Int) (hN : 0 < N) :
    checkConnectionLimit N N = (false, N) ∧
    checkConnectionLimit 0 c = (true, c) ∧
    handleConnectionAdmission N N = (false, N) ∧
    handleConnectionAdmission N (N - 1) = (true, N - 1) ∧
    releaseConnection N N = N - 1 ∧
    checkConnectionLimit N (releaseConnection N N) = (true, N) := by
  unfold handleConnectionAdmission checkConnectionLimit releaseConnection
  have h1 : ¬ N ≤ (0 : Int) := by omega
  have h2 : N < N + 1 := by omega
  have h3 : ¬ N < N - 1 + 1 := by omega
  simp [h1, h2, h3]

/-- Witness for C3 at N = 2, c = 5. -/
theorem connection_limit_behaviour_witness :
    checkConnectionLimit 2 2 = (false, 2) ∧
    checkConnectionLimit 0 5 = (true, 5) ∧
    handleConnectionAdmission 2 2 = (false, 2) ∧
    handleConnectionAdmission 2 (2 - 1) = (true, 2 - 1) ∧
    releaseConnection 2 2 = 2 - 1 ∧
    checkConnectionLimit 2 (releaseConnection 2 2) = (true, 2) :=
  connection_limit_behaviour 2 5 (by decide)

/-- C7: a MsgResize frame whose payload fails to unmarshal changes
nothing at all: the returned session state (stored size, bridge size,
notification channel, program messages, input bytes) is exactly the
input state. -/
theorem malformed_resize_ignored (readOnly : Bool) (unmarshal : Unmarshal)
    (payload : List Nat) (s : SessionState) (h : unmarshal payload = none) :
    processInput readOnly unmarshal (MsgResize :: payload) s = s := by
  simp [processInput, MsgInput, MsgResize, h]

/-- Witness for C7: a concrete failing decoder and payload. -/
theorem malformed_resize_ignored_witness :
    processInput true (fun _ => none) (MsgResize :: [120]) (createSession 80 24) =
      createSession 80 24 :=
  malformed_resize_ignored true (fun _ => none) [120] (createSession 80 24) rfl

/-- C8: session destruction is idempotent.  A second invocation of
closeSession (or closeCmdSession) is a no-op: the closed flag is
checked-and-set under the session's lock before any teardown effect, so
closing an already-closed session changes nothing, and a double close
equals a single close. -/
theorem close_session_idempotent (t : TeardownState) :
    closeSession (closeSession t) = closeSession t ∧
    (closeSession t).closed = true ∧
    (t.closed = true → closeSession t = t) ∧
    closeCmdSession (closeCmdSession t) = closeCmdSession t ∧
    (closeCmdSession t).closed = true ∧
    (t.closed = true → closeCmdSession t = t) := by
  by_cases hc : t.closed <;>
    by_cases hp : t.hasProgram <;>
      by_cases hl : t.hasPlatform <;>
        simp [closeSession, closeCmdSession, hc, hp, hl]

/-- Witness for C8 at concrete open and closed teardown states. -/
theorem close_session_idempotent_witness :
    closeSession (closeSession ⟨false, true, true, 0, 0, 0, 0⟩) =
      closeSession ⟨false, true, true, 0, 0, 0, 0⟩ ∧
    closeSession ⟨true, true, true, 1, 1, 1, 1⟩ = ⟨true, true, true, 1, 1, 1, 1⟩ ∧
    closeCmdSession ⟨true, false, true, 0, 1, 1, 1⟩ = ⟨true, false, true, 0, 1, 1, 1⟩ :=
  ⟨(close_session_idempotent ⟨false, true, true, 0, 0, 0, 0⟩).1,
   (close_session_idempotent ⟨true, true, true, 1, 1, 1, 1⟩).2.2.1 rfl,
   (close_session_idempotent ⟨true, false, true, 0, 1, 1, 1⟩).2.2.2.2.2 rfl⟩

/-- C10: session creation clamps each non-positive initial dimension
independently to the default (cols 80, rows 24) — in both the web and
the spawned-command variant, and in particular when the clamped values
come from a successfully parsed initial resize frame carrying a zero or
negative value — while a mid-session Resize stores whatever integers it
is given, without clamping. -/
theorem creation_clamps_resize_does_not (c r : Int) (s : SessionState)
    (unmarshal : Unmarshal) (payload : List Nat) (m : ResizeMessage)
    (hm : unmarshal payload = some m) :
    (createSession c r).cols = (if c ≤ 0 then 80 else c) ∧
    (createSession c r).rows = (if r ≤ 0 then 24 else r) ∧
    (createCmdSession c r).cols = (if c ≤ 0 then 80 else c) ∧
    (createCmdSession c r).rows = (if r ≤ 0 then 24 else r) ∧
    (s.resize c r).cols = c ∧
    (s.resize c r).rows = r ∧
    negotiateInitialSize unmarshal (some (MsgResize :: payload)) = (m.cols, m.rows) ∧
    (createSession m.cols m.rows).cols = (if m.cols ≤ 0 then 80 else m.cols) ∧
    (createSession m.cols m.rows).rows = (if m.rows ≤ 0 then 24 else m.rows) := by
  refine ⟨rfl, rfl, rfl, rfl, resize_cols s c r, resize_rows s c r, ?_, rfl, rfl⟩
  simp [negotiateInitialSize, hm]

/-- Witness for C10: an initial resize frame carrying cols 0, rows -3
yields a session clamped to 80×24, while Resize 0 (-3) stores 0 and -3
verbatim. -/
theorem creation_clamps_resize_does_not_witness :
    (createSession 0 (-3)).cols = (if (0 : Int) ≤ 0 then 80 else 0) ∧
    (createSession 0 (-3)).rows = (if (-3 : Int) ≤ 0 then 24 else -3) ∧
    (createCmdSession 0 (-3)).cols = (if (0 : Int) ≤ 0 then 80 else 0) ∧
    (createCmdSession 0 (-3)).rows = (if (-3 : Int) ≤ 0 then 24 else -3) ∧
    ((createSession 80 24).resize 0 (-3)).cols = 0 ∧
    ((createSession 80 24).resize 0 (-3)).rows = -3 ∧
    negotiateInitialSize (fun _ => some ⟨0, -3⟩) (some (MsgResize :: [])) =
      ((⟨0, -3⟩ : ResizeMessage).cols, (⟨0, -3⟩ : ResizeMessage).rows) ∧
    (createSession (⟨0, -3⟩ : ResizeMessage).cols (⟨0, -3⟩ : ResizeMessage).rows).cols =
      (if (⟨0, -3⟩ : ResizeMessage).cols ≤ 0 then 80 else (⟨0, -3⟩ : ResizeMessage).cols) ∧
    (createSession (⟨0, -3⟩ : ResizeMessage).cols (⟨0, -3⟩ : ResizeMessage).rows).rows =
      (if (⟨0, -3⟩ : ResizeMessage).rows ≤ 0 then 24 else (⟨0, -3⟩ : ResizeMessage).rows) :=
  creation_clamps_resize_does_not 0 (-3) (createSession 80 24)
    (fun _ => some ⟨0, -3⟩) [] ⟨0, -3⟩ rfl

/-- C5: the initial frame is read with a 5-second timeout; a first
frame that is a resize decoding to cols 100, rows 40 yields a session
created at 100×40; no frame (timeout or read error) — or a resize
payload that fails to decode — yields the default 80×24. -/
theorem initial_size_negotiation (unmarshal : Unmarshal) (payload : List Nat)
    (u2 : Unmarshal) (q : List Nat)
    (h : unmarshal payload = some ⟨100, 40⟩) (hq : u2 q = none) :
    initialReadTimeoutSeconds = 5 ∧
    negotiateInitialSize unmarshal (some (MsgResize :: payload)) = (100, 40) ∧
    (createSession 100 40).pty = ⟨100, 40⟩ ∧
    negotiateInitialSize unmarshal none = (80, 24) ∧
    (createSession 80 24).pty = ⟨80, 24⟩ ∧
    negotiateInitialSize u2 (some (MsgResize :: q)) = (80, 24) := by
  refine ⟨rfl, ?_, rfl, rfl, rfl, ?_⟩
  · simp [negotiateInitialSize, h]
  · simp [negotiateInitialSize, hq]

/-- Witness for C5 with concrete decoders. -/
theorem initial_size_negotiation_witness :
    initialReadTimeoutSeconds = 5 ∧
    negotiateInitialSize (fun _ => some ⟨100, 40⟩) (some (MsgResize :: [])) = (100, 40) ∧
    (createSession 100 40).pty = ⟨100, 40⟩ ∧
    negotiateInitialSize (fun _ => some ⟨100, 40⟩) none = (80, 24) ∧
    (createSession 80 24).pty = ⟨80, 24⟩ ∧
    negotiateInitialSize (fun _ => none) (some (MsgResize :: [123])) = (80, 24) :=
  initial_size_negotiation (fun _ => some ⟨100, 40⟩) [] (fun _ => none) [123] rfl rfl

/-- C6: a multiplexed-transport frame whose declared 4-byte big-endian
length exceeds 1 MiB makes the input pump return immediately — ending
only that connection — without touching the session state or consuming
further frames; the teardown that follows deletes only that
connection's own session from the registry, leaving every other
session's entry in place. -/
theorem oversized_frame_terminates_only_connection (readOnly : Bool)
    (unmarshal : Unmarshal) (b0 b1 b2 b3 : Nat) (rest : List Nat)
    (s : SessionState) (registry : List String) (id other : String)
    (h : 1024 * 1024 < beUint32 b0 b1 b2 b3) (hother : other ≠ id) :
    handleWebTransportInput readOnly unmarshal (b0 :: b1 :: b2 :: b3 :: rest) s = s ∧
    (other ∈ registryDelete registry id ↔ other ∈ registry) := by
  constructor
  · rw [handleWebTransportInput]
    simp [h]
  · simp [registryDelete, List.mem_filter, hother]

/-- Witness for C6: declared length 1 MiB + 1 with a concrete
registry. -/
theorem oversized_frame_terminates_only_connection_witness :
    handleWebTransportInput true (fun _ => none)
      (0 :: 16 :: 0 :: 1 :: [MsgInput, 65]) (createSession 80 24) =
      createSession 80 24 ∧
    (("b" : String) ∈ registryDelete ["a", "b"] "a" ↔ ("b" : String) ∈ ["a", "b"]) :=
  oversized_frame_terminates_only_connection true (fun _ => none) 0 16 0 1
    [MsgInput, 65] (createSession 80 24) ["a", "b"] "a" "b" (by decide) (by decide)

/-- C1 as stated is false on the code: the windowChanges send is a
non-blocking send into a capacity-1 channel that DROPS the new value
when the slot is occupied, so a burst of two resizes (1,1) then (2,2)
into an initially empty channel leaves (1,1) — the FIRST of the burst,
not the last — to be received. -/
theorem resize_channel_last_value_counterexample :
    (receiveWindowChange (((createSession 80 24).resize 1 1).resize 2 2)).1 ≠
      some ⟨2, 2⟩ ∧
    (receiveWindowChange (((createSession 80 24).resize 1 1).resize 2 2)).1 =
      some ⟨1, 1⟩ := by
  decide

/-- C1 amended: the channel holds at most one pending value (it has
capacity 1), and a burst of N resizes applied to a session whose
channel is empty, followed by a single receive, yields exactly the
FIRST resize of the burst — every later resize of the burst is dropped
by the non-blocking send while the slot is still occupied — and leaves
the channel empty again. -/
theorem resize_channel_first_of_burst (s : SessionState) (first : WindowSize)
    (rest : List WindowSize) (h : s.windowChanges = none) :
    (receiveWindowChange (applyResizeBurst (first :: rest) s)).1 = some first ∧
    (receiveWindowChange (applyResizeBurst (first :: rest) s)).2.windowChanges = none := by
  have hslot : (applyResizeBurst (first :: rest) s).windowChanges = some first := by
    simp only [applyResizeBurst, List.foldl_cons]
    exact applyResizeBurst_windowChanges_of_some rest _ first
      (by simpa using resize_windowChanges_of_none s first.width first.height h)
  exact ⟨hslot, rfl⟩

/-- Witness for the amended C1: a burst of three resizes on a fresh
session yields the first. -/
theorem resize_channel_first_of_burst_witness :
    (receiveWindowChange (applyResizeBurst (⟨2, 2⟩ :: [⟨3, 3⟩, ⟨4, 4⟩])
        (createSession 80 24))).1 = some ⟨2, 2⟩ ∧
    (receiveWindowChange (applyResizeBurst (⟨2, 2⟩ :: [⟨3, 3⟩, ⟨4, 4⟩])
        (createSession 80 24))).2.windowChanges = none :=
  resize_channel_first_of_burst (createSession 80 24) ⟨2, 2⟩ [⟨3, 3⟩, ⟨4, 4⟩] rfl

/-- C4: after any sequence of resize messages is dispatched, the
session's reported size (Pty) is the (cols, rows) of the last
successfully parsed resize message, and is unchanged from the starting
size when none parsed — messages failing to unmarshal have no
effect. -/
theorem pty_equals_last_parsed_resize (readOnly : Bool) (unmarshal : Unmarshal)
    (payloads : List (List Nat)) (s : SessionState) :
    (applyResizeMsgs readOnly unmarshal payloads s).pty =
      ((payloads.filterMap unmarshal).map fun r => Pty.mk r.cols r.rows).getLastD
        s.pty := by
  induction payloads generalizing s with
  | nil => rfl
  | cons p rest ih =>
    simp only [applyResizeMsgs, List.foldl_cons, List.filterMap_cons]
    cases hp : unmarshal p with
    | none =>
      have : processInput readOnly unmarshal (MsgResize :: p) s = s := by
        simp [processInput, MsgInput, MsgResize, hp]
      rw [this]
      exact ih s
    | some r =>
      have hstep : processInput readOnly unmarshal (MsgResize :: p) s =
          s.resize r.cols r.rows := by
        simp [processInput, MsgInput, MsgResize, hp]
      rw [hstep, List.map_cons, List.getLastD_cons]
      have hpty : (s.resize r.cols r.rows).pty = Pty.mk r.cols r.rows := by
        simp [SessionState.pty, resize_cols, resize_rows]
      rw [← hpty]
      exact ih (s.resize r.cols r.rows)

theorem outputPump_chunks_then_done (chunks : List (List Nat)) :
    outputPump (chunks.map PumpObs.readChunk ++ [PumpObs.sessDone]) =
      ((chunks.filter fun c => !c.isEmpty).map fun c => MsgOutput :: c) ++
        [[MsgClose]] := by
  induction chunks with
  | nil => rfl
  | cons c cs ih =>
    by_cases hc : c = [] <;>
      simp [outputPump, List.filter_cons, hc, ih]

/-- C9: when the spawned command exits on its own, the watcher's
`Wait-then-cancel` closes the session's done signal; the output pump,
observing it, writes exactly one close message as its final write, and
the handler's deferred teardown runs only after the pumps return — so
the close message strictly precedes the teardown event — and the
teardown removes the session from the registry exactly once, a second
(racing) close invocation adding nothing. -/
theorem cmd_exit_close_then_single_teardown (chunks : List (List Nat))
    (t : TeardownState) (h : t.closed = false) :
    sessionDoneAfterProcessExit true = true ∧
    handlerTail (chunks.map PumpObs.readChunk ++ [PumpObs.sessDone]) =
      ((chunks.filter fun c => !c.isEmpty).map fun c =>
        ConnEvent.sent (MsgOutput :: c)) ++
        [ConnEvent.sent [MsgClose], ConnEvent.tornDown] ∧
    (closeCmdSession t).registryDeleteCount = t.registryDeleteCount + 1 ∧
    (closeCmdSession (closeCmdSession t)).registryDeleteCount =
      t.registryDeleteCount + 1 := by
    refine ⟨rfl, ?_, ?_, ?_⟩
    · rw [handlerTail, outputPump_chunks_then_done]
      simp
    · by_cases hl : t.hasPlatform <;> simp [closeCmdSession, h, hl]
    · by_cases hl : t.hasPlatform <;> simp [closeCmdSession, h, hl]

/-- Witness for C9: two chunks (one empty, one of one byte) then
process exit, with a concrete open teardown state. -/
theorem cmd_exit_close_then_single_teardown_witness :
    sessionDoneAfterProcessExit true = true ∧
    handlerTail (([[], [65]].map PumpObs.readChunk) ++ [PumpObs.sessDone]) =
      (([[], [65]].filter fun c => !c.isEmpty).map fun c =>
        ConnEvent.sent (MsgOutput :: c)) ++
        [ConnEvent.sent [MsgClose], ConnEvent.tornDown] ∧
    (closeCmdSession ⟨false, false, true, 0, 0, 0, 0⟩).registryDeleteCount = 0 + 1 ∧
    (closeCmdSession (closeCmdSession ⟨false, false, true, 0, 0, 0, 0⟩)).registryDeleteCount =
      0 + 1 :=
  cmd_exit_close_then_single_teardown [[], [65]] ⟨false, false, true, 0, 0, 0, 0⟩ rfl

end Sip
